import Mathlib

/-!
Shallow embedding of the vschatreact chat client (src/unnamed/part_001, the
current App.js, plus src/src/App.js and src/public/sw.js) and proofs about
its session, connection, messaging, presence, typing and notification logic.

All state lives in React `useState` hooks and `useRef` cells; the embedding
collects them into an explicit record and renders each handler as a pure
state-transition function.  Machine integers do not occur; JS numbers used
here are ids, timestamps and counters, modelled as `Nat`.  Strings are
modelled as Lean `String` (the code only manipulates ASCII-ish message
text, so JS UTF-16 code units and Lean chars agree on everything proved).
-/

/-- A user profile as returned by the backend: `{id, username, email}`. -/
structure Profile where
  id : Nat
  username : String
  email : String
deriving DecidableEq

/-- A message as held in the `messages` state array.  `created_at` is a
timestamp (the code stores an ISO string derived from the clock; we keep
the clock value itself).  `pending` is the optimistic-delivery flag. -/
structure Msg where
  id : Nat
  content : String
  sender_id : Nat
  created_at : Nat
  isOwn : Bool
  pending : Bool
deriving DecidableEq

/-- The `connectionStatus` state string, as an enumeration.  The code
stores `reconnecting (n/5)` as a string; we carry the attempt counter. -/
inductive ConnStatus where
  | disconnected
  | connecting
  | connected
  | reconnecting (attempt : Nat)
  | failed
  | error
deriving DecidableEq

/-- An outbound socket emission (`socketRef.current.emit(...)`). -/
inductive SockEmit where
  | sendMsg (receiverId : Nat) (content : String)
  | typingStart (receiverId : Nat)
  | typingStop (receiverId : Nat)
deriving DecidableEq

/-- The relevant React state of the `App` component.  `token` and
`userData` are the two `localStorage` keys; `socket` is `socketRef.current`
(`some ()` when a socket object has been assigned); `channelOpen` records
whether `initializeSocket` has been run without a later teardown
(`socket.disconnect()`); `emitted` is the trace of outbound socket
emissions; `deliveryTimer` holds the optimistic-message id of a scheduled
1-second delivery timeout; `typingTimer` the expiry of the typing
timeout. -/
structure State where
  token : Option String
  userData : Option Profile
  currentUser : Option Profile
  users : List Profile
  selectedUser : Option Profile
  messages : List Msg
  newMessage : String
  connectionStatus : ConnStatus
  socket : Option Unit
  channelOpen : Bool
  emitted : List SockEmit
  isTyping : Bool
  deliveryTimer : Option Nat
  typingTimer : Option Nat
deriving DecidableEq

/-- The state before any effect has run: nothing stored, nothing
connected. -/
def initialState : State :=
  { token := none, userData := none, currentUser := none, users := []
    selectedUser := none, messages := [], newMessage := ""
    connectionStatus := .disconnected, socket := none, channelOpen := false
    emitted := [], isTyping := false, deliveryTimer := none
    typingTimer := none }

/-- JavaScript `String.prototype.includes`: is `sub` a contiguous substring
of `h`? -/
def strIncludes (h sub : String) : Bool :=
  (List.range (h.length + 1)).any (fun i => sub.data.isPrefixOf (h.data.drop i))

/-- A JavaScript error value, as far as `validateToken` inspects it:
`error.name` and `error.message`. -/
structure JsError where
  name : String
  message : String
deriving DecidableEq

/-- Outcome of the `fetch` to `/api/validate`: either a response (with
content-type, `res.ok`, `res.status` and a parsed JSON body available when
ok) or a rejection with a JS error. -/
inductive FetchResult where
  | response (contentTypeJson : Bool) (ok : Bool) (status : Nat) (body : Profile)
  | networkError (e : JsError)
deriving DecidableEq

/-- `clearAuthData` (part_001 lines 79-83): remove both localStorage keys
and null the current user. -/
def clearAuthData (s : State) : State :=
  { s with token := none, userData := none, currentUser := none }

/-- `validateToken` (part_001 lines 85-121).  Returns the boolean the JS
promise resolves with, together with the state after its side effects
(on `res.ok` it rewrites `userData` in localStorage and `currentUser`).
A non-JSON content-type returns false; a non-ok response returns false;
in the catch branch only a `TypeError` whose message contains `JSON`
returns true (the offline-capability path), every other error returns
false. -/
def validateToken (fr : FetchResult) (s : State) : Bool × State :=
  match fr with
  | .response contentTypeJson ok _status body =>
      if !contentTypeJson then (false, s)
      else if ok then
        (true, { s with userData := some body, currentUser := some body })
      else (false, s)
  | .networkError e =>
      if e.name = "TypeError" && strIncludes e.message "JSON" then (true, s)
      else (false, s)

/-- `initializeSocket` (part_001 lines 235-331), up to the synchronous part
that matters here: sets status to `connecting` and installs a fresh socket
(opening the channel). -/
def initializeSocket (s : State) : State :=
  { s with connectionStatus := .connecting, socket := some (), channelOpen := true }

/-- `initializeApp` (part_001 lines 30-77) composed with the
`validateToken(token).then(isValid => ...)` continuation: when both
localStorage keys are present the cached profile is adopted immediately,
then validation runs; `isValid = false` clears the auth data, `isValid =
true` opens the socket and loads users.  The `.catch` continuation
(`initializeSocket` anyway) is unreachable because `validateToken` catches
every error internally and always resolves, so it has no counterpart
here. -/
def initializeApp (storedToken : Option String) (storedUser : Option Profile)
    (fr : FetchResult) : State :=
  match storedToken, storedUser with
  | some tok, some prof =>
      let s1 : State :=
        { initialState with token := some tok, userData := some prof
                            currentUser := some prof }
      let r := validateToken fr s1
      if r.1 then initializeSocket r.2 else clearAuthData r.2
  | tok, prof =>
      { initialState with token := tok, userData := prof }

/-- `handleLogout` (part_001 lines 532-542): everything is behind
`window.confirm`; on cancel nothing at all happens.  On confirm the auth
data is cleared, UI state reset, and the socket disconnected (channel torn
down). -/
def handleLogout (confirm : Bool) (s : State) : State :=
  if confirm then
    let s := clearAuthData s
    { s with currentUser := none, selectedUser := none, messages := []
             users := [], channelOpen := false }
  else s

/-- The `connect_error` handler (part_001 lines 257-267): set status
`error`; when the error message contains `auth` or `401`, call
`handleLogout` (which itself asks for confirmation). -/
def connectError (errMsg : String) (confirm : Bool) (s : State) : State :=
  let s1 : State := { s with connectionStatus := .error }
  if strIncludes errMsg "auth" || strIncludes errMsg "401" then
    handleLogout confirm s1
  else s1

/-- JavaScript `String.prototype.trim`: strip leading and trailing
whitespace.  (Defined over the char list so it computes by kernel
reduction.) -/
def jsTrim (s : String) : String :=
  String.mk (((s.data.dropWhile Char.isWhitespace).reverse.dropWhile
    Char.isWhitespace).reverse)

/-- `handleTypingStop` (part_001 lines 155-161): guarded on a selected
user, a live socket ref, and `isTyping`; on success it clears the flag,
emits `typing_stop`, and clears the typing timeout. -/
def handleTypingStop (s : State) : State :=
  match s.selectedUser, s.socket with
  | some sel, some _ =>
      if s.isTyping then
        { s with isTyping := false
                 emitted := s.emitted ++ [.typingStop sel.id]
                 typingTimer := none }
      else s
  | _, _ => s

/-- `sendMessage` (part_001 lines 442-483).  `now` is `Date.now()` (also
the provisional id and `created_at`); `emitOk` is whether the
`socket.emit` call returns normally (false models a synchronous transport
throw, landing in the catch that removes the optimistic message).  The
guard checks the trimmed content, the selected user and the socket ref —
nothing else.  On the success path a 1-second delivery timeout is
scheduled, recorded in `deliveryTimer`; on throw, `setTimeout` is never
reached.  When `currentUser` is null, JS throws reading `currentUser.id`
after `handleTypingStop` but before any message mutation. -/
def sendMessage (now : Nat) (emitOk : Bool) (s : State) : State :=
  let content := jsTrim s.newMessage
  if content = "" || s.selectedUser = none || s.socket = none then s
  else
    match s.selectedUser with
    | none => s
    | some sel =>
        let s := handleTypingStop s
        match s.currentUser with
        | none => s
        | some cu =>
            let optimistic : Msg :=
              { id := now, content := content, sender_id := cu.id
                created_at := now, isOwn := true, pending := true }
            let s := { s with messages := s.messages ++ [optimistic]
                              newMessage := "" }
            if emitOk then
              { s with emitted := s.emitted ++ [.sendMsg sel.id content]
                       deliveryTimer := some now }
            else
              { s with messages := s.messages.filter (fun m => m.id ≠ optimistic.id) }

/-- The delivery `setTimeout` callback inside `sendMessage` (lines
469-475): map over the messages, clearing `pending` on the one whose id
matches the optimistic id. -/
def deliveryTimeout (msgId : Nat) (s : State) : State :=
  { s with messages := s.messages.map (fun m =>
              if m.id = msgId then { m with pending := false } else m)
           deliveryTimer := none }

/-- `sendMessage` followed by its scheduled delivery timeout (when one was
scheduled): the quiescent state of one send. -/
def sendMessageFinal (now : Nat) (emitOk : Bool) (s : State) : State :=
  let s1 := sendMessage now emitOk s
  match s1.deliveryTimer with
  | some msgId => deliveryTimeout msgId s1
  | none => s1

/-- The send button (part_001 line 849): `disabled={!newMessage.trim() ||
connectionStatus !== 'connected'}`.  A click reaches `sendMessage` only
when enabled; this is where the ConnectionState guard actually lives. -/
def uiSendClick (now : Nat) (emitOk : Bool) (s : State) : State :=
  if jsTrim s.newMessage = "" || s.connectionStatus ≠ .connected then s
  else sendMessage now emitOk s

/-- The typing debounce window from part_001 line 152: `setTimeout(...,
2000)`. -/
def typingDebounceMs : Nat := 2000

/-- Timed-simulation state for the typing indicator: the `isTyping` flag,
the pending `typingTimeoutRef` expiry (absolute time), and the trace of
emissions `(time, isStart)` — `true` for `typing_start`, `false` for
`typing_stop`.  The simulation assumes a conversation is selected and the
socket ref is live throughout (the scenario of the claim), so the
`!selectedUser || !socketRef.current` guards never fire. -/
structure TypState where
  isTyping : Bool
  timer : Option Nat
  emits : List (Nat × Bool)
deriving DecidableEq

/-- Fire the typing timeout if its expiry has passed by time `t`.  The
callback is `handleTypingStop`: it emits `typing_stop` (at the expiry
time) only when `isTyping` is still set. -/
def fireTimerIfDue (t : Nat) (st : TypState) : TypState :=
  match st.timer with
  | some e =>
      if e ≤ t then
        if st.isTyping then
          { isTyping := false, timer := none, emits := st.emits ++ [(e, false)] }
        else { st with timer := none }
      else st
  | none => st

/-- `handleTypingStart` (part_001 lines 142-153) invoked at time `t`: when
`isTyping` is already set the guard returns early — nothing is emitted
and, crucially, the timeout is NOT reset.  Otherwise it sets the flag,
emits `typing_start`, and (re)arms the 2-second timeout. -/
def markTypingAt (t : Nat) (st : TypState) : TypState :=
  if st.isTyping then st
  else
    { isTyping := true, timer := some (t + typingDebounceMs)
      emits := st.emits ++ [(t, true)] }

/-- One simulation step: the event loop delivers any due timeout before
the keystroke handler runs at time `t`. -/
def typingStep (t : Nat) (st : TypState) : TypState :=
  markTypingAt t (fireTimerIfDue t st)

/-- Let the final pending timeout (if any) expire after the last call. -/
def flushTypingTimer (st : TypState) : TypState :=
  match st.timer with
  | some e =>
      if st.isTyping then
        { isTyping := false, timer := none, emits := st.emits ++ [(e, false)] }
      else { st with timer := none }
  | none => st

/-- Run a whole sequence of `markTyping` calls (given by their times, in
order) from the idle state and let the last timer expire; the result is
the emission trace. -/
def runTyping (calls : List Nat) : List (Nat × Bool) :=
  (flushTypingTimer (calls.foldl (fun st t => typingStep t st) ⟨false, none, []⟩)).emits

/-- The configured retry budget (part_001 line 243):
`reconnectionAttempts: 5`. -/
def reconnectionAttempts : Nat := 5

/-- Events the socket.io-client reconnection manager delivers to the
handlers registered in `initializeSocket`. -/
inductive MgrEvent where
  | reconnectAttempt (attempt : Nat)
  | reconnectFailed
  | connectEv
deriving DecidableEq

/-- Modelled from the spec: the reconnection manager of socket.io-client —
a dependency whose source is not under src/ — as configured at part_001
lines 239-245.  Per its documented contract it numbers attempts 1, 2, …
up to `maxA` (emitting `reconnect_attempt n` before the n-th try) and
emits `reconnect_failed` exactly once when the budget is exhausted;
`failures` is the number of attempts the network makes fail (the next one
would succeed, emitting `connect`). -/
def managerEvents (maxA failures : Nat) : List MgrEvent :=
  if maxA ≤ failures then
    (List.range maxA).map (fun i => .reconnectAttempt (i + 1)) ++ [.reconnectFailed]
  else
    (List.range (failures + 1)).map (fun i => .reconnectAttempt (i + 1)) ++ [.connectEv]

/-- The handlers from part_001 lines 247-276: `reconnect_attempt` sets the
status string `reconnecting (attempt/5)`, `reconnect_failed` sets
`failed`, `connect` sets `connected`. -/
def reconnectHandler : MgrEvent → ConnStatus
  | .reconnectAttempt n => .reconnecting n
  | .reconnectFailed => .failed
  | .connectEv => .connected

/-- The sequence of `connectionStatus` values a reconnection episode with
`failures` failed tries writes, under the configured budget. -/
def statusTrace (failures : Nat) : List ConnStatus :=
  (managerEvents reconnectionAttempts failures).map reconnectHandler

/-- The attempt counters carried by the `reconnecting` statuses of a
trace, in order. -/
def attemptCounters (trace : List ConnStatus) : List Nat :=
  trace.filterMap (fun st => match st with
    | .reconnecting n => some n
    | _ => none)

/-- The `user_online` handler (part_001 lines 291-293): insert into the
online set. -/
def userOnline (userId : Nat) (s : Finset Nat) : Finset Nat :=
  insert userId s

/-- The `user_offline` handler (part_001 lines 295-301): copy the set and
delete the id. -/
def userOffline (userId : Nat) (s : Finset Nat) : Finset Nat :=
  s.erase userId

/-- A desktop notification as constructed by the `message` handler. -/
structure Notif where
  title : String
  body : String
deriving DecidableEq

/-- The notification branch of the `message` handler (part_001 lines
282-288).  Conditions: `document.hidden`, the Notification API present,
permission granted.  Title: `New message from ${selectedUser?.username ||
'Someone'}` — the *selected* user's name (JS `||` falls back on an empty
username).  Body: contents over 50 units are cut to `substring(0, 50)`
plus an ellipsis.  Strings are built from explicit char lists so lengths
compute. -/
def notifyOnMessage (documentHidden notifAvailable permissionGranted : Bool)
    (selectedUser : Option Profile) (content : String) : Option Notif :=
  if documentHidden && notifAvailable && permissionGranted then
    let who : String :=
      match selectedUser with
      | some u => if u.username = "" then "Someone" else u.username
      | none => "Someone"
    some { title := "New message from " ++ who
           body := if 50 < content.length
                   then String.mk (content.data.take 50) ++ "..."
                   else content }
  else none

/-- The value of a base64 alphabet character, per RFC 4648 (the alphabet
`window.atob` accepts). -/
def b64Val (c : Char) : Option Nat :=
  if 'A' ≤ c && c ≤ 'Z' then some (c.toNat - 65)
  else if 'a' ≤ c && c ≤ 'z' then some (c.toNat - 97 + 26)
  else if '0' ≤ c && c ≤ '9' then some (c.toNat - 48 + 52)
  else if c = '+' then some 62
  else if c = '/' then some 63
  else none

/-- Base64 decoding on the char list of the input: four input characters
yield three bytes, with `=` padding allowed only in the final quantum.
Returns `none` exactly when `window.atob` would throw. -/
def atobList : List Char → Option (List Nat)
  | [] => some []
  | a :: b :: '=' :: '=' :: [] => do
      let va ← b64Val a
      let vb ← b64Val b
      pure [va * 4 + vb / 16]
  | a :: b :: c :: '=' :: [] => do
      let va ← b64Val a
      let vb ← b64Val b
      let vc ← b64Val c
      pure [va * 4 + vb / 16, (vb % 16) * 16 + vc / 4]
  | a :: b :: c :: d :: rest => do
      let va ← b64Val a
      let vb ← b64Val b
      let vc ← b64Val c
      let vd ← b64Val d
      let tail ← atobList rest
      pure ([va * 4 + vb / 16, (vb % 16) * 16 + vc / 4, (vc % 4) * 64 + vd] ++ tail)
  | _ => none

/-- `window.atob`: decode base64 into a binary string whose char codes are
the decoded bytes (each below 256, so `Char.ofNat` is faithful). -/
def atob (s : String) : Option String :=
  (atobList s.data).map (fun bytes => String.mk (bytes.map Char.ofNat))

/-- The base64url-to-base64 normalisation both helpers perform: pad with
`=` to a multiple of 4, then map `-` to `+` and `_` to `/`.  (Both source
copies compute the padding as `(4 - length % 4) % 4` and do the two regex
replaces; this shared definition is used to state the characterisation.) -/
def b64Normalize (base64String : String) : String :=
  let padding : String := String.mk (List.replicate ((4 - base64String.length % 4) % 4) '=')
  String.mk ((base64String ++ padding).data.map (fun c =>
    if c = '-' then '+' else if c = '_' then '/' else c))

/-- `urlBase64ToUint8Array` from src/src/App.js lines 59-64:
`Uint8Array.from([...rawData].map((c) => c.charCodeAt(0)))` — a map over
the spread characters of the decoded string.  `none` models the atob
throw on an undecodable input. -/
def urlBase64ToUint8ArrayApp (base64String : String) : Option (List Nat) :=
  let padding : String := String.mk (List.replicate ((4 - base64String.length % 4) % 4) '=')
  let base64 : String := String.mk ((base64String ++ padding).data.map (fun c =>
    if c = '-' then '+' else if c = '_' then '/' else c))
  (atob base64).map (fun rawData => rawData.data.map Char.toNat)

/-- `urlBase64ToUint8Array` from src/unnamed/part_001 lines 964-975: an
indexed for-loop `for (i = 0; i < rawData.length; ++i) outputArray[i] =
rawData.charCodeAt(i)`. -/
def urlBase64ToUint8Array001 (base64String : String) : Option (List Nat) :=
  let padding : String := String.mk (List.replicate ((4 - base64String.length % 4) % 4) '=')
  let base64 : String := String.mk ((base64String ++ padding).data.map (fun c =>
    if c = '-' then '+' else if c = '_' then '/' else c))
  (atob base64).map (fun rawData =>
    (List.range rawData.data.length).map (fun i => (rawData.data.getD i ' ').toNat))

/-- C1: the claim says a malformed-response or network failure during
background validation never invalidates the session.  The code disagrees:
a plain network failure (a `TypeError` such as `Failed to fetch`, whose
message does not contain `JSON`) makes `validateToken` resolve to false,
upon which `initializeApp` runs `clearAuthData`, wiping the stored token,
the cached profile and the current user — even though the code's own
comments state the offline-tolerant intent.  This theorem evaluates the
startup pipeline at that failing input. -/
theorem validateToken_network_failure_clears_session :
    (initializeApp (some "t1") (some ⟨1, "alice", "a@b.com"⟩)
        (.networkError ⟨"TypeError", "Failed to fetch"⟩)).token = none ∧
    (initializeApp (some "t1") (some ⟨1, "alice", "a@b.com"⟩)
        (.networkError ⟨"TypeError", "Failed to fetch"⟩)).userData = none ∧
    (initializeApp (some "t1") (some ⟨1, "alice", "a@b.com"⟩)
        (.networkError ⟨"TypeError", "Failed to fetch"⟩)).currentUser = none := by
  decide

/-- An authenticated, connected state: token and profile stored, socket
live, channel open. -/
def authedState : State :=
  { initialState with
      token := some "t1"
      userData := some ⟨1, "alice", "a@b.com"⟩
      currentUser := some ⟨1, "alice", "a@b.com"⟩
      socket := some ()
      channelOpen := true
      connectionStatus := .connected }

/-- C4: the claim says an authentication-failure connection error forces
an immediate, unconditional transition to anonymous and tears the channel
down, with no condition on user input.  The code routes this through
`handleLogout`, which is gated on `window.confirm`: when the user cancels
the dialog, the token, cached profile, current user and open channel all
survive — only `connectionStatus` becomes `error`.  This theorem evaluates
the `connect_error` handler at that failing input. -/
theorem connectError_auth_cancel_keeps_session :
    (connectError "auth failed" false authedState).token = some "t1" ∧
    (connectError "auth failed" false authedState).currentUser = some ⟨1, "alice", "a@b.com"⟩ ∧
    (connectError "auth failed" false authedState).channelOpen = true ∧
    (connectError "auth failed" false authedState).connectionStatus = .error := by
  decide

/-- C7: a 401 from `/api/validate` while a cached credential exists clears
both localStorage keys, leaves the session anonymous, and never opens the
realtime channel — for any token, cached profile, response body, and
whether or not the 401 response carries a JSON content-type. -/
theorem validate401_clears_credentials_no_channel :
    ∀ (tok : String) (prof body : Profile) (ctJson : Bool),
      (initializeApp (some tok) (some prof) (.response ctJson false 401 body)).token = none ∧
      (initializeApp (some tok) (some prof) (.response ctJson false 401 body)).userData = none ∧
      (initializeApp (some tok) (some prof) (.response ctJson false 401 body)).currentUser = none ∧
      (initializeApp (some tok) (some prof) (.response ctJson false 401 body)).channelOpen = false := by
  intro tok prof body ctJson
  cases ctJson <;>
    simp [initializeApp, validateToken, clearAuthData, initialState]

/-- C8: a `user_offline` event removes its id from the presence set,
replaying it is idempotent, and the result never gains members. -/
theorem userOffline_removes_idempotent_shrinks :
    ∀ (uid : Nat) (s : Finset Nat),
      uid ∉ userOffline uid s ∧
      userOffline uid (userOffline uid s) = userOffline uid s ∧
      userOffline uid s ⊆ s := by
  intro uid s
  refine ⟨Finset.not_mem_erase uid s, ?_, Finset.erase_subset uid s⟩
  simp [userOffline]

/-- A state typed-but-disconnected: content entered, conversation
selected, socket ref still installed (a disconnect does not null
`socketRef.current`), yet `connectionStatus` is `disconnected`. -/
def disconnectedSendState : State :=
  { initialState with
      currentUser := some ⟨1, "alice", "a@b.com"⟩
      selectedUser := some ⟨2, "bob", "b@b.com"⟩
      newMessage := "hi"
      socket := some ()
      connectionStatus := .disconnected }

/-- C2 counterexample: `sendMessage` does not check `connectionStatus` —
its guard is `!content || !selectedUser || !socketRef.current` only.  In a
disconnected state whose socket ref is still set, invoking it appends the
optimistic message and emits, mutating the message sequence. -/
theorem sendMessage_mutates_while_disconnected :
    disconnectedSendState.connectionStatus ≠ .connected ∧
    (sendMessage 42 true disconnectedSendState).messages ≠ disconnectedSendState.messages ∧
    (sendMessage 42 true disconnectedSendState).emitted ≠ disconnectedSendState.emitted := by
  decide

/-- C2 amended: the silent no-op guard of `sendMessage` itself covers
empty trimmed content, no selected conversation, and a null socket ref —
not ConnectionState; the `connected` requirement is enforced one layer up,
by the UI affordance (`disabled={!newMessage.trim() || connectionStatus
!== 'connected'}`), so a send attempted through the UI while not connected
leaves the state untouched. -/
theorem send_noop_guards :
    ∀ (now : Nat) (emitOk : Bool) (s : State),
      (jsTrim s.newMessage = "" ∨ s.selectedUser = none ∨ s.socket = none →
        sendMessage now emitOk s = s) ∧
      (s.connectionStatus ≠ .connected → uiSendClick now emitOk s = s) := by
  intro now emitOk s
  constructor
  · intro h
    have hb : (decide (jsTrim s.newMessage = "") || decide (s.selectedUser = none)
        || decide (s.socket = none)) = true := by
      rcases h with h | h | h <;> simp [h]
    simp only [sendMessage, hb, if_true]
  · intro h
    have hb : (decide (jsTrim s.newMessage = "") || decide (¬ s.connectionStatus = .connected))
        = true := by
      simp [h]
    simp only [uiSendClick, hb, if_true]

/-- Witness for the amended C2 theorem at a concrete state: the initial
state has empty content, so `sendMessage` is the identity there. -/
theorem send_noop_guards_witness :
    sendMessage 0 true initialState = initialState :=
  (send_noop_guards 0 true initialState).1 (Or.inl (by decide))

/-- C3 counterexample: two `markTyping` calls at times 0 and 1900 (1.9s
apart, within the 2-second window).  The claim says the second call resets
the debounce timer, so `typing_stop` should fire at 1900 + 2000 = 3900.
In the code the second call hits the `isTyping` early-return before the
`clearTimeout`/`setTimeout` lines, so the timer is NOT reset: the stop
fires at 0 + 2000 = 2000, and no emission happens at 3900. -/
theorem markTyping_no_timer_reset :
    runTyping [0, 1900] = [(0, true), (2000, false)] ∧
    (3900, false) ∉ runTyping [0, 1900] := by
  decide

/-- Helper: while `isTyping` is set and the armed timer has not yet
expired, every further `markTyping` call is a complete no-op — it neither
emits nor touches the timer. -/
theorem typingStep_noop_while_armed (e : Nat) (emits : List (Nat × Bool)) :
    ∀ (rest : List Nat), (∀ t ∈ rest, t < e) →
      rest.foldl (fun st t => typingStep t st) ⟨true, some e, emits⟩
        = ⟨true, some e, emits⟩ := by
  intro rest
  induction rest with
  | nil => intro _; rfl
  | cons t ts ih =>
      intro h
      have ht : t < e := h t (List.mem_cons_self t ts)
      have hstep : typingStep t (⟨true, some e, emits⟩ : TypState)
          = ⟨true, some e, emits⟩ := by
        simp [typingStep, fireTimerIfDue, markTypingAt, Nat.not_le.mpr ht]
      rw [List.foldl_cons, hstep]
      exact ih (fun u hu => h u (List.mem_cons_of_mem t hu))

/-- C3 amended: for N ≥ 1 calls with a conversation selected and a live
socket, all made before the first call's 2-second timeout expires, exactly
one `typing_start` is emitted (at the first call) and exactly one
`typing_stop` — but the stop fires 2 seconds after the FIRST call, not the
last: calls made before expiry hit the `isTyping` guard's early return and
do not reset the timer. -/
theorem markTyping_debounce_amended :
    ∀ (t0 : Nat) (rest : List Nat),
      (∀ t ∈ rest, t < t0 + typingDebounceMs) →
      runTyping (t0 :: rest) = [(t0, true), (t0 + typingDebounceMs, false)] := by
  intro t0 rest h
  have hfirst : typingStep t0 (⟨false, none, []⟩ : TypState)
      = ⟨true, some (t0 + typingDebounceMs), [(t0, true)]⟩ := by
    simp [typingStep, fireTimerIfDue, markTypingAt]
  unfold runTyping
  rw [List.foldl_cons, hfirst, typingStep_noop_while_armed _ _ rest h]
  simp [flushTypingTimer]

/-- Witness for the amended C3 theorem: three calls at 0, 500 and 999 give
exactly the trace start-at-0, stop-at-2000. -/
theorem markTyping_debounce_amended_witness :
    runTyping [0, 500, 999] = [(0, true), (2000, false)] :=
  markTyping_debounce_amended 0 [500, 999] (by decide)

/-- Helper: `attemptCounters` distributes over append. -/
theorem attemptCounters_append (l1 l2 : List ConnStatus) :
    attemptCounters (l1 ++ l2) = attemptCounters l1 ++ attemptCounters l2 := by
  simp [attemptCounters]

/-- Helper: the counters of a block of `reconnecting (i+1)` statuses are
exactly the successors. -/
theorem attemptCounters_reconnecting_map (l : List Nat) :
    attemptCounters (l.map (fun i => ConnStatus.reconnecting (i + 1)))
      = l.map (· + 1) := by
  induction l with
  | nil => rfl
  | cons a as ih =>
      simpa [attemptCounters, List.filterMap_cons] using ih

/-- Helper: successive successors of `range` form a strictly increasing
chain. -/
theorem chain_lt_range_map (k : Nat) :
    List.Chain' (· < ·) ((List.range k).map (· + 1)) := by
  have hp : List.Pairwise (· < ·) (List.range k) := List.pairwise_lt_range k
  exact (hp.map _ (fun a b hab => Nat.succ_lt_succ hab)).chain'

/-- C5: over any reconnection episode under the configured budget of 5
attempts, the attempt counters carried by the `reconnecting` statuses are
strictly (hence monotonically) increasing and bounded by 5, and the
`failed` status is written exactly once when the budget is exhausted and
never otherwise. -/
theorem reconnect_monotone_bounded_single_failed :
    ∀ (failures : Nat),
      List.Chain' (· < ·) (attemptCounters (statusTrace failures)) ∧
      (∀ n ∈ attemptCounters (statusTrace failures), n ≤ reconnectionAttempts) ∧
      (reconnectionAttempts ≤ failures →
        (statusTrace failures).count ConnStatus.failed = 1) ∧
      (failures < reconnectionAttempts →
        (statusTrace failures).count ConnStatus.failed = 0) := by
  intro failures
  by_cases hf : reconnectionAttempts ≤ failures
  · have htrace : statusTrace failures
        = (List.range reconnectionAttempts).map (fun i => ConnStatus.reconnecting (i + 1))
          ++ [ConnStatus.failed] := by
      simp [statusTrace, managerEvents, hf, reconnectHandler, List.map_map,
        Function.comp]
    have hcnt : attemptCounters (statusTrace failures)
        = (List.range reconnectionAttempts).map (· + 1) := by
      rw [htrace, attemptCounters_append, attemptCounters_reconnecting_map]
      simp [attemptCounters]
    refine ⟨?_, ?_, ?_, ?_⟩
    · rw [hcnt]; exact chain_lt_range_map _
    · rw [hcnt]
      intro n hn
      simp only [List.mem_map, List.mem_range] at hn
      obtain ⟨i, hi, rfl⟩ := hn
      omega
    · intro _
      rw [htrace]
      simp [List.count_append, List.count_eq_zero]
    · intro h; omega
  · push_neg at hf
    have htrace : statusTrace failures
        = (List.range (failures + 1)).map (fun i => ConnStatus.reconnecting (i + 1))
          ++ [ConnStatus.connected] := by
      simp [statusTrace, managerEvents, Nat.not_le.mpr hf, reconnectHandler,
        List.map_map, Function.comp]
    have hcnt : attemptCounters (statusTrace failures)
        = (List.range (failures + 1)).map (· + 1) := by
      rw [htrace, attemptCounters_append, attemptCounters_reconnecting_map]
      simp [attemptCounters]
    refine ⟨?_, ?_, ?_, ?_⟩
    · rw [hcnt]; exact chain_lt_range_map _
    · rw [hcnt]
      intro n hn
      simp only [List.mem_map, List.mem_range] at hn
      obtain ⟨i, hi, rfl⟩ := hn
      omega
    · intro h; omega
    · intro _
      rw [htrace]
      simp [List.count_append, List.count_eq_zero]

/-- Witness for C5 at a concrete episode: seven consecutive failures
exhaust the budget of 5 and yield exactly one `failed` transition. -/
theorem reconnect_witness :
    (statusTrace 7).count ConnStatus.failed = 1 :=
  (reconnect_monotone_bounded_single_failed 7).2.2.1 (by decide)

/-- Helper: `handleTypingStop` touches only the typing flag, the emission
trace and the typing timer — messages, user, draft and delivery timer are
untouched. -/
theorem handleTypingStop_preserves (s : State) :
    (handleTypingStop s).messages = s.messages ∧
    (handleTypingStop s).currentUser = s.currentUser ∧
    (handleTypingStop s).newMessage = s.newMessage ∧
    (handleTypingStop s).deliveryTimer = s.deliveryTimer := by
  unfold handleTypingStop
  cases s.selectedUser <;> cases s.socket <;> simp
  split <;> simp

/-- Helper: under the send preconditions, the messages and delivery timer
a `sendMessage` call leaves behind, by emit outcome: on success the
optimistic message is appended and a delivery timeout scheduled; on a
throw it is filtered back out and no timeout exists. -/
theorem sendMessage_messages_run (now : Nat) (emitOk : Bool) (s : State) (sel cu : Profile)
    (h1 : ¬ jsTrim s.newMessage = "") (hsel : s.selectedUser = some sel)
    (hsock : s.socket = some ()) (hcu : s.currentUser = some cu) :
    (sendMessage now emitOk s).messages
      = (if emitOk then
           s.messages ++ [⟨now, jsTrim s.newMessage, cu.id, now, true, true⟩]
         else (s.messages ++ [(⟨now, jsTrim s.newMessage, cu.id, now, true, true⟩ : Msg)]).filter
            (fun m => m.id ≠ now)) ∧
    (sendMessage now emitOk s).deliveryTimer
      = (if emitOk then some now else s.deliveryTimer) := by
  have hpre := handleTypingStop_preserves s
  unfold sendMessage
  simp only [hsel, hsock, h1]
  simp [hpre.1, hpre.2.1, hpre.2.2.1, hpre.2.2.2, hcu, hsel, hsock, h1]
  cases emitOk <;> simp

/-- C6: under the send preconditions (non-empty trimmed draft, selected
conversation, live socket, a current user, no delivery timeout already in
flight), the optimistically appended message reaches exactly one terminal
state once the send and its possible delivery timeout have run: either it
sits in the sequence with `pending` cleared (successful emit), or no
message with its provisional id remains (transport throw) — never both,
never neither. -/
theorem optimistic_message_terminal :
    ∀ (now : Nat) (emitOk : Bool) (s : State) (sel cu : Profile),
      ¬ jsTrim s.newMessage = "" →
      s.selectedUser = some sel →
      s.socket = some () →
      s.currentUser = some cu →
      s.deliveryTimer = none →
      (((⟨now, jsTrim s.newMessage, cu.id, now, true, false⟩ : Msg)
            ∈ (sendMessageFinal now emitOk s).messages ∧
        ¬ (∀ m ∈ (sendMessageFinal now emitOk s).messages, m.id ≠ now)) ∨
       ((⟨now, jsTrim s.newMessage, cu.id, now, true, false⟩ : Msg)
            ∉ (sendMessageFinal now emitOk s).messages ∧
        (∀ m ∈ (sendMessageFinal now emitOk s).messages, m.id ≠ now))) := by
  intro now emitOk s sel cu h1 hsel hsock hcu htimer
  cases emitOk with
  | true =>
      have hrun := sendMessage_messages_run now true s sel cu h1 hsel hsock hcu
      simp at hrun
      left
      have hfinal : (sendMessageFinal now true s).messages
          = ((sendMessage now true s).messages).map
              (fun m => if m.id = now then { m with pending := false } else m) := by
        simp only [sendMessageFinal, hrun.2, deliveryTimeout]
      have hmem : (⟨now, jsTrim s.newMessage, cu.id, now, true, false⟩ : Msg)
          ∈ (sendMessageFinal now true s).messages := by
        rw [hfinal, hrun.1]
        refine List.mem_map.mpr
          ⟨⟨now, jsTrim s.newMessage, cu.id, now, true, true⟩, ?_, by simp⟩
        exact List.mem_append_right _ (by simp)
      refine ⟨hmem, fun hall => ?_⟩
      exact absurd rfl (hall _ hmem)
  | false =>
      have hrun := sendMessage_messages_run now false s sel cu h1 hsel hsock hcu
      simp at hrun
      right
      have hfinal : sendMessageFinal now false s = sendMessage now false s := by
        simp only [sendMessageFinal, hrun.2, htimer]
      have hall : ∀ m ∈ (sendMessageFinal now false s).messages, m.id ≠ now := by
        rw [hfinal, hrun.1]
        intro m hm
        have := List.of_mem_filter hm
        simpa using this
      refine ⟨fun hmem => ?_, hall⟩
      exact absurd rfl (hall _ hmem)

/-- A connected, authenticated state with a draft ready to send. -/
def sendReadyState : State :=
  { initialState with
      currentUser := some ⟨1, "alice", "a@b.com"⟩
      selectedUser := some ⟨2, "bob", "b@b.com"⟩
      newMessage := "hi"
      socket := some ()
      connectionStatus := .connected }

/-- Witness for C6 at a concrete send: a successful emit from
`sendReadyState` ends with the optimistic message terminal. -/
theorem optimistic_message_terminal_witness :
    ((⟨5, jsTrim sendReadyState.newMessage, 1, 5, true, false⟩ : Msg)
          ∈ (sendMessageFinal 5 true sendReadyState).messages ∧
      ¬ (∀ m ∈ (sendMessageFinal 5 true sendReadyState).messages, m.id ≠ 5)) ∨
    ((⟨5, jsTrim sendReadyState.newMessage, 1, 5, true, false⟩ : Msg)
          ∉ (sendMessageFinal 5 true sendReadyState).messages ∧
      (∀ m ∈ (sendMessageFinal 5 true sendReadyState).messages, m.id ≠ 5)) :=
  optimistic_message_terminal 5 true sendReadyState ⟨2, "bob", "b@b.com"⟩
    ⟨1, "alice", "a@b.com"⟩ (by decide) rfl rfl rfl rfl

/-- A 51-character message content. -/
def longContent : String := String.mk (List.replicate 51 'a')

/-- C9 counterexample: the claim says the notification body is the
content truncated to at most 50 characters.  For a 51-character content
the code emits `content.substring(0, 50) + '...'`, a 53-character body.
(The title is also built from the currently selected contact, not the
message's sender — the handler never reads the sender at all.) -/
theorem notification_body_53_chars :
    ((notifyOnMessage true true true (some ⟨3, "bob", "b@b.com"⟩) longContent).map
        (fun n => n.body.length)) = some 53 ∧
    ((notifyOnMessage true true true (some ⟨3, "bob", "b@b.com"⟩) longContent).map
        Notif.title) = some "New message from bob" ∧
    ¬ (53 ≤ 50) := by
  decide

/-- C9 amended: a notification is emitted exactly when the document is
hidden, the Notification API exists and permission is granted; its title
is `New message from` plus the *selected* contact's username (`Someone`
when none is selected or the name is empty) — not necessarily the
sender's; its body is the content itself when at most 50 characters, and
otherwise the first 50 characters plus an ellipsis, 53 characters in
total. -/
theorem notification_amended :
    ∀ (hidden avail granted : Bool) (sel : Option Profile) (content : String),
      (¬ (hidden = true ∧ avail = true ∧ granted = true) →
        notifyOnMessage hidden avail granted sel content = none) ∧
      (hidden = true → avail = true → granted = true →
        ((notifyOnMessage hidden avail granted sel content).map Notif.title)
            = some ("New message from " ++
                (match sel with
                 | some u => if u.username = "" then "Someone" else u.username
                 | none => "Someone")) ∧
        (content.length ≤ 50 →
          (notifyOnMessage hidden avail granted sel content).map Notif.body = some content) ∧
        (50 < content.length →
          (notifyOnMessage hidden avail granted sel content).map (fun n => n.body.length)
            = some 53)) := by
  intro hidden avail granted sel content
  constructor
  · intro h
    have hb : (hidden && avail && granted) = false := by
      cases hidden <;> cases avail <;> cases granted <;> simp_all
    simp [notifyOnMessage, hb]
  · intro hh ha hg
    subst hh; subst ha; subst hg
    refine ⟨by simp [notifyOnMessage], ?_, ?_⟩
    · intro hle
      simp [notifyOnMessage, Nat.not_lt.mpr hle]
    · intro hgt
      have hlen : (String.mk (content.data.take 50) ++ "...").length = 53 := by
        have h2 : content.data.length = content.length := rfl
        rw [String.length_append]
        simp only [String.length, List.length_take, List.length_cons, List.length_nil]
        omega
      simp [notifyOnMessage, hgt, hlen]

/-- Witness for the amended C9 theorem: with the document visible no
notification is emitted. -/
theorem notification_amended_witness :
    notifyOnMessage false true true none "x" = none :=
  (notification_amended false true true none "x").1 (by decide)

/-- Helper: mapping char codes over a list is the same as indexing it
positionally, the shape difference between the two source loops. -/
theorem map_toNat_eq_range_getD (l : List Char) :
    l.map Char.toNat
      = (List.range l.length).map (fun i => (l.getD i ' ').toNat) := by
  induction l with
  | nil => rfl
  | cons c cs ih =>
      rw [List.length_cons, List.range_succ_eq_map]
      simp only [List.map_cons, List.map_map, List.getD_cons_zero]
      have hcomp : ((fun i => ((c :: cs).getD i ' ').toNat) ∘ Nat.succ)
          = fun i => (cs.getD i ' ').toNat := by
        funext i
        simp [Function.comp, Nat.succ_eq_add_one]
      rw [hcomp, ← ih]

/-- Helper: the spread-map form and the indexed-loop form agree on any
atob outcome. -/
theorem map_option_index (o : Option String) :
    o.map (fun rawData => rawData.data.map Char.toNat)
      = o.map (fun rawData =>
          (List.range rawData.data.length).map (fun i => (rawData.data.getD i ' ').toNat)) := by
  cases o <;> simp [map_toNat_eq_range_getD]

/-- C10: the two `urlBase64ToUint8Array` helpers compute the same
function; on any input whose padded, url-decoded form atob accepts, both
return the byte list whose i-th element is the char code of the i-th
character of the decoded string, with the same length as that string. -/
theorem urlBase64_helpers_equivalent :
    ∀ (s : String),
      urlBase64ToUint8ArrayApp s = urlBase64ToUint8Array001 s ∧
      (∀ raw, atob (b64Normalize s) = some raw →
        urlBase64ToUint8ArrayApp s = some (raw.data.map Char.toNat) ∧
        (raw.data.map Char.toNat).length = raw.length) := by
  intro s
  constructor
  · exact map_option_index (atob (b64Normalize s))
  · intro raw hraw
    constructor
    · have hdef : urlBase64ToUint8ArrayApp s
          = (atob (b64Normalize s)).map (fun rawData => rawData.data.map Char.toNat) := rfl
      rw [hdef, hraw]
      rfl
    · rw [List.length_map]
      rfl

/-- Witness for C10 at a concrete input: `SGk` (base64url for `Hi`). -/
theorem urlBase64_helpers_equivalent_witness :
    urlBase64ToUint8ArrayApp "SGk" = some ("Hi".data.map Char.toNat) :=
  ((urlBase64_helpers_equivalent "SGk").2 "Hi" (by decide)).1
